import Mathlib

/-!
Verification development for the dorametrix Shortcut parser and its
timestamp utilities.

The first half embeds `ShortcutParser` (getEventType, getPayload,
getStoryData, hasLabelId, hasIncidentLabel, handleOpenedLabeled,
handleClosedUnlabeled, handleTimeResolved).  Dynamic JS records are
embedded as structures with `Option` fields (a `none` field models an
absent key / `undefined`); the outbound story fetch and the external
`convertDateToUnixTimestamp` library call are passed in as explicit
function parameters; `Date.now()` is passed in as a natural number of
milliseconds.  JS exceptions become an `Except` error value, including
the `TypeError` that the source raises when it touches `undefined`
where an object or array is required.

The second half embeds `time.ts` (getTimestampForInputDate,
convertToIsoDate, getTimestampForISODate,
createTimezoneConvertedDateString) together with a model of the
JavaScript `new Date(isoString).getTime()` parser for the exact
date-time string shape that this module produces.
-/

/-- The `adds`/`removes` delta object found at `action.changes.label_ids`
in a Shortcut webhook action. -/
structure LabelDelta where
  adds : Option (List Int)
  removes : Option (List Int)
deriving Repr, DecidableEq

/-- The `changes` object of a webhook action; only the `label_ids` key is
read by the parser. -/
structure ActionChanges where
  label_ids : Option LabelDelta
deriving Repr, DecidableEq

/-- One element of the webhook body's `actions` array: an `action` kind
string, an optional direct `label_ids` list, and an optional `changes`
delta. -/
structure ShortcutAction where
  action : Option String
  label_ids : Option (List Int)
  changes : Option ActionChanges
deriving Repr, DecidableEq

/-- The webhook body.  The parser reads exactly the keys `primary_id`,
`actions` and `changed_at`; an absent key is `none`.  The JS value is an
arbitrary object, so emptiness (`Object.keys(body).length == 0`) is
modelled over these three keys. -/
structure WebhookBody where
  primary_id : Option String
  actions : Option (List ShortcutAction)
  changed_at : Option String
deriving Repr, DecidableEq

/-- The story record fetched from the Shortcut API (the "detail record").
The parser reads `id`, `name`, `created_at`, `completed`, `archived`,
`completed_at` and `completed_at_override`. -/
structure StoryData where
  id : Option Int
  name : Option String
  created_at : Option String
  completed : Bool
  archived : Bool
  completed_at : Option String
  completed_at_override : Option String
deriving Repr, DecidableEq

/-- The exceptions the parser can raise on the modelled paths:
`MissingShortcutFieldsError`, `MissingIdError`, and the JS `TypeError`
thrown when `actions` is `undefined` but is used as an array or passed
to `Object.keys`. -/
inductive JsError where
  | missingShortcutFields
  | missingId
  | typeError
deriving Repr, DecidableEq

/-- The canonical event DTO produced by `getPayload`.  `timeResolved`
is `Option` because `handleOpenedLabeled` builds an object without that
key; `eventTime` and `title` are `Option` because they copy possibly
absent webhook/story fields. -/
structure EventDto where
  eventTime : Option String
  timeCreated : String
  timeResolved : Option String
  id : String
  title : Option String
  message : String
deriving Repr, DecidableEq

/-- JS `Object.keys(webhookbody).length == 0` over the three modelled
keys of the webhook body. -/
def bodyIsEmpty (wb : WebhookBody) : Bool :=
  wb.primary_id.isNone && wb.actions.isNone && wb.changed_at.isNone

/-- JS `ls.filter((label) => label == incidentLabelId).length > 0`. -/
def labelFilterCountPos (ls : List Int) (incidentLabelId : Int) : Bool :=
  decide (0 < (ls.filter (fun label => label == incidentLabelId)).length)

/-- The `delta[check]` lookup: selects the `adds` or `removes` list of a
label delta; any other key yields `undefined`. -/
def deltaField (d : LabelDelta) (check : String) : Option (List Int) :=
  if check = "adds" then d.adds
  else if check = "removes" then d.removes
  else none

/-- The optional chain `action?.changes?.label_ids?.[check]`. -/
def deltaLabels (a : ShortcutAction) (check : String) : Option (List Int) :=
  (a.changes.bind (fun c => c.label_ids)).bind (fun d => deltaField d check)

/-- `ShortcutParser.hasLabelId`: walks the actions array and returns
`true` as soon as one action's direct `label_ids` or its
`changes.label_ids[check]` delta contains the target id.  An absent
list makes the corresponding JS comparison `undefined > 0`, i.e.
`false`, modelled by `Option.getD []`. -/
def hasLabelId (check : String) (incidentLabelId : Int) : List ShortcutAction → Bool
  | [] => false
  | a :: rest =>
    if labelFilterCountPos (a.label_ids.getD []) incidentLabelId then true
    else if labelFilterCountPos ((deltaLabels a check).getD []) incidentLabelId then true
    else hasLabelId check incidentLabelId rest

/-- `ShortcutParser.hasIncidentLabel`: `hasLabelId` with check `adds`
and the configured incident label id. -/
def hasIncidentLabel (incidentLabelId : Int) (acts : List ShortcutAction) : Bool :=
  hasLabelId "adds" incidentLabelId acts

/-- `ShortcutParser.getStoryData`: reads `primary_id` (JS `!id` is true
for an absent id and for the empty string), then performs the fetch
(`fetchStory`, `none` modelling an empty/absent JSON response, which
trips the `Object.keys(storyData).length == 0` guard). -/
def getStoryData (fetchStory : String → Option StoryData) (body : WebhookBody) :
    Except JsError StoryData :=
  match body.primary_id with
  | none => .error .missingId
  | some id =>
    if id = "" then .error .missingId
    else
      match fetchStory id with
      | none => .error .missingShortcutFields
      | some s => .ok s

/-- `ShortcutParser.getEventType`: empty or missing body raises
`MissingShortcutFieldsError`; otherwise `hasIncidentLabel` is applied to
`body.actions`.  When `actions` is absent, `Object.keys(undefined)`
inside `hasLabelId` throws a `TypeError`. -/
def getEventType (incidentLabelId : Int) (input : Option WebhookBody) :
    Except JsError String :=
  match input with
  | none => .error .missingShortcutFields
  | some wb =>
    if bodyIsEmpty wb then .error .missingShortcutFields
    else
      match wb.actions with
      | none => .error .typeError
      | some acts => .ok (if hasIncidentLabel incidentLabelId acts then "incident" else "change")

/-- The classifying IIFE inside `ShortcutParser.getPayload`: completed or
archived story first, then the `create` filter, then the `update`
filter, else `unknown`.  When `actions` is absent the JS
`webhookbody?.['actions'].filter(...)` throws a `TypeError`. -/
def classify (incidentLabelId : Int) (wb : WebhookBody) (story : StoryData) :
    Except JsError String :=
  if story.completed then .ok "closed"
  else if story.archived then .ok "closed"
  else
    match wb.actions with
    | none => .error .typeError
    | some acts =>
      if decide (0 < (acts.filter (fun a => a.action == some "create")).length) then
        .ok (if hasIncidentLabel incidentLabelId acts then "labeled" else "opened")
      else if decide (0 < (acts.filter (fun a => a.action == some "update")).length) then
        .ok (if hasLabelId "adds" incidentLabelId acts then "labeled"
             else if hasLabelId "removes" incidentLabelId acts then "unlabeled"
             else "opened")
      else .ok "unknown"

/-- JS `a || b` on two optional strings, where the empty string is falsy
(`completed_at_override?.toString() || completed_at?.toString()`). -/
def jsOrStr (a b : Option String) : Option String :=
  match a with
  | some s => if s = "" then b else some s
  | none => b

/-- `ShortcutParser.handleTimeResolved`: for a completed or archived
story, the external `convertDateToUnixTimestamp` (the `convert`
parameter) applied to `completed_at_override || completed_at`;
otherwise `Date.now().toString()`, the current time in milliseconds. -/
def handleTimeResolved (convert : Option String → String) (nowMs : Nat)
    (body : StoryData) : String :=
  if body.completed || body.archived then
    convert (jsOrStr body.completed_at_override body.completed_at)
  else toString nowMs

/-- JS template string `${body?.['id']}` for the optional numeric story
id (absent renders as `undefined`). -/
def renderStoryId : Option Int → String
  | some n => toString n
  | none => "undefined"

/-- JSON rendering of an optional string field, as `JSON.stringify`
renders the fetched story's fields. -/
def renderOptStr : Option String → String
  | some s => "\"" ++ s ++ "\""
  | none => "null"

/-- `JSON.stringify(body)` for the modelled story fields. -/
def serializeStory (s : StoryData) : String :=
  "\x7b\"id\":" ++ renderStoryId s.id ++
  ",\"name\":" ++ renderOptStr s.name ++
  ",\"created_at\":" ++ renderOptStr s.created_at ++
  ",\"completed\":" ++ (if s.completed then "true" else "false") ++
  ",\"archived\":" ++ (if s.archived then "true" else "false") ++
  ",\"completed_at\":" ++ renderOptStr s.completed_at ++
  ",\"completed_at_override\":" ++ renderOptStr s.completed_at_override ++ "\x7d"

/-- `ShortcutParser.handleOpenedLabeled`: DTO without a `timeResolved`
key. -/
def handleOpenedLabeled (convert : Option String → String)
    (webhook : WebhookBody) (body : StoryData) : EventDto :=
  { eventTime := webhook.changed_at
  , timeCreated := convert body.created_at
  , timeResolved := none
  , id := renderStoryId body.id
  , title := body.name
  , message := serializeStory body }

/-- `ShortcutParser.handleClosedUnlabeled`: DTO with a `timeResolved`
key computed by `handleTimeResolved`. -/
def handleClosedUnlabeled (convert : Option String → String) (nowMs : Nat)
    (webhook : WebhookBody) (body : StoryData) : EventDto :=
  { eventTime := webhook.changed_at
  , timeCreated := convert body.created_at
  , timeResolved := some (handleTimeResolved convert nowMs body)
  , id := renderStoryId body.id
  , title := body.name
  , message := serializeStory body }

/-- The sentinel all-UNKNOWN DTO returned for an unrecognized event. -/
def unknownDto : EventDto :=
  { eventTime := some "UNKNOWN"
  , timeCreated := "UNKNOWN"
  , timeResolved := some "UNKNOWN"
  , id := "UNKNOWN"
  , title := some "UNKNOWN"
  , message := "UNKNOWN" }

/-- `ShortcutParser.getPayload`: empty-body guard, story fetch,
classification, then dispatch on the classified event string. -/
def getPayload (incidentLabelId : Int) (fetchStory : String → Option StoryData)
    (convert : Option String → String) (nowMs : Nat)
    (input : Option WebhookBody) : Except JsError EventDto :=
  match input with
  | none => .error .missingShortcutFields
  | some wb =>
    if bodyIsEmpty wb then .error .missingShortcutFields
    else
      match getStoryData fetchStory wb with
      | .error e => .error e
      | .ok story =>
        match classify incidentLabelId wb story with
        | .error e => .error e
        | .ok event =>
          if event = "opened" ∨ event = "labeled" then
            .ok (handleOpenedLabeled convert wb story)
          else if event = "closed" ∨ event = "unlabeled" then
            .ok (handleClosedUnlabeled convert nowMs wb story)
          else .ok unknownDto

/-! Concrete fixtures used by witnesses and counterexamples. -/

/-- A story that is neither completed nor archived. -/
def storyOpen : StoryData :=
  { id := some 41, name := some "Open story", created_at := some "2023-01-01T00:00:00Z",
    completed := false, archived := false, completed_at := none,
    completed_at_override := none }

/-- A completed story. -/
def storyDone : StoryData :=
  { id := some 42, name := some "Done story", created_at := some "2023-01-01T00:00:00Z",
    completed := true, archived := false, completed_at := some "2023-01-02T00:00:00Z",
    completed_at_override := none }

/-- A fetch stub that always returns the open story. -/
def fetchOpen : String → Option StoryData := fun _ => some storyOpen

/-- A fetch stub that always returns the completed story. -/
def fetchDone : String → Option StoryData := fun _ => some storyDone

/-- A concrete stand-in for the external `convertDateToUnixTimestamp`. -/
def convertStub : Option String → String := fun o => "converted:" ++ o.getD "undefined"

/-- A `create` action carrying the incident label 7 directly. -/
def createWithLabel : ShortcutAction :=
  { action := some "create", label_ids := some [7], changes := none }

/-- A `create` action without the incident label. -/
def createNoLabel : ShortcutAction :=
  { action := some "create", label_ids := some [3], changes := none }

/-- An `update` action whose delta removes the incident label 7. -/
def updateRemoveLabel : ShortcutAction :=
  { action := some "update", label_ids := none,
    changes := some { label_ids := some { adds := none, removes := some [7] } } }

/-- An `update` action whose delta adds the incident label 7. -/
def updateAddLabel : ShortcutAction :=
  { action := some "update", label_ids := none,
    changes := some { label_ids := some { adds := some [7], removes := none } } }

/-- A webhook body with one labelled `create` action. -/
def wbCreate : WebhookBody :=
  { primary_id := some "314", actions := some [createWithLabel],
    changed_at := some "2023-01-03T10:00:00Z" }

/-- A webhook body with one unlabelled `create` action. -/
def wbCreatePlain : WebhookBody :=
  { primary_id := some "314", actions := some [createNoLabel],
    changed_at := some "2023-01-03T10:00:00Z" }

/-- A webhook body with one `update` action that removes the label. -/
def wbUpdateRemove : WebhookBody :=
  { primary_id := some "314", actions := some [updateRemoveLabel],
    changed_at := some "2023-01-05T12:00:00Z" }

/-- A non-empty webhook body with no `actions` key at all. -/
def wbNoActions : WebhookBody :=
  { primary_id := none, actions := none, changed_at := some "2023-01-03T10:00:00Z" }

/-- A non-empty webhook body with an empty `actions` array. -/
def wbEmptyActions : WebhookBody :=
  { primary_id := some "314", actions := some [], changed_at := none }

/-- The empty webhook body (`\x7b\x7d`). -/
def wbEmpty : WebhookBody :=
  { primary_id := none, actions := none, changed_at := none }

/-- A non-empty webhook body lacking `primary_id`. -/
def wbNoId : WebhookBody :=
  { primary_id := none, actions := some [createWithLabel], changed_at := none }

/-- C1: for every webhook body and fetched story whose completed or
archived flag is true, getPayload takes the closed/unlabeled handling
path (the classifier yields `closed`), regardless of the body's
actions. -/
theorem c1_closed_on_completed_or_archived
    (lid : Int) (fetchStory : String → Option StoryData)
    (convert : Option String → String) (nowMs : Nat)
    (wb : WebhookBody) (story : StoryData) (pid : String)
    (hne : bodyIsEmpty wb = false) (hpid : wb.primary_id = some pid) (hpne : pid ≠ "")
    (hf : fetchStory pid = some story)
    (hca : story.completed = true ∨ story.archived = true) :
    getPayload lid fetchStory convert nowMs (some wb)
      = .ok (handleClosedUnlabeled convert nowMs wb story) := by
  rcases hca with h | h
  · simp [getPayload, hne, getStoryData, hpid, hpne, hf, classify, h]
  · cases hcomp : story.completed
    · simp [getPayload, hne, getStoryData, hpid, hpne, hf, classify, hcomp, h]
    · simp [getPayload, hne, getStoryData, hpid, hpne, hf, classify, hcomp]

/-- Witness for C1 at a concrete labelled-create body and completed
story. -/
theorem c1_closed_on_completed_or_archived_w :
    getPayload 7 fetchDone convertStub 1000 (some wbCreate)
      = .ok (handleClosedUnlabeled convertStub 1000 wbCreate storyDone) :=
  c1_closed_on_completed_or_archived 7 fetchDone convertStub 1000 wbCreate storyDone "314"
    (by decide) rfl (by decide) rfl (Or.inl rfl)

/-- C2: for a body whose story is neither completed nor archived and
whose actions contain a `create` action, the classifier yields
`labeled` exactly when `hasIncidentLabel` holds of the actions, else
`opened`, and getPayload produces the opened/labeled DTO. -/
theorem c2_create_labeled_or_opened
    (lid : Int) (fetchStory : String → Option StoryData)
    (convert : Option String → String) (nowMs : Nat)
    (wb : WebhookBody) (story : StoryData) (pid : String) (acts : List ShortcutAction)
    (hne : bodyIsEmpty wb = false) (hpid : wb.primary_id = some pid) (hpne : pid ≠ "")
    (hf : fetchStory pid = some story)
    (hcomp : story.completed = false) (harch : story.archived = false)
    (hacts : wb.actions = some acts)
    (hcreate : 0 < (acts.filter (fun a => a.action == some "create")).length) :
    classify lid wb story = .ok (if hasIncidentLabel lid acts then "labeled" else "opened")
      ∧ getPayload lid fetchStory convert nowMs (some wb)
          = .ok (handleOpenedLabeled convert wb story) := by
  have hcl : classify lid wb story
      = .ok (if hasIncidentLabel lid acts then "labeled" else "opened") := by
    simp [classify, hcomp, harch, hacts, hcreate]
  refine ⟨hcl, ?_⟩
  by_cases hil : hasIncidentLabel lid acts
  · simp [getPayload, hne, getStoryData, hpid, hpne, hf, hcl, hil]
  · simp [getPayload, hne, getStoryData, hpid, hpne, hf, hcl, hil]

/-- Witness for C2 at a concrete labelled-create body and open story. -/
theorem c2_create_labeled_or_opened_w :
    classify 7 wbCreate storyOpen
        = .ok (if hasIncidentLabel 7 [createWithLabel] then "labeled" else "opened")
      ∧ getPayload 7 fetchOpen convertStub 1000 (some wbCreate)
          = .ok (handleOpenedLabeled convertStub wbCreate storyOpen) :=
  c2_create_labeled_or_opened 7 fetchOpen convertStub 1000 wbCreate storyOpen "314"
    [createWithLabel] (by decide) rfl (by decide) rfl rfl rfl rfl (by decide)

/-- C3: for a body whose story is neither completed nor archived, with
no `create` action but at least one `update` action, the classifier
yields `labeled` if the incident label was added, else `unlabeled` if
it was removed, else `opened`. -/
theorem c3_update_labeled_unlabeled_opened
    (lid : Int) (wb : WebhookBody) (story : StoryData) (acts : List ShortcutAction)
    (hcomp : story.completed = false) (harch : story.archived = false)
    (hacts : wb.actions = some acts)
    (hnoc : (acts.filter (fun a => a.action == some "create")).length = 0)
    (hupd : 0 < (acts.filter (fun a => a.action == some "update")).length) :
    classify lid wb story
      = .ok (if hasLabelId "adds" lid acts then "labeled"
             else if hasLabelId "removes" lid acts then "unlabeled"
             else "opened") := by
  simp [classify, hcomp, harch, hacts, hnoc, hupd]

/-- Witness for C3 at a concrete update-with-removal body: the label
was removed, so the classifier yields `unlabeled`. -/
theorem c3_update_labeled_unlabeled_opened_w :
    classify 7 wbUpdateRemove storyOpen
      = .ok (if hasLabelId "adds" 7 [updateRemoveLabel] then "labeled"
             else if hasLabelId "removes" 7 [updateRemoveLabel] then "unlabeled"
             else "opened") :=
  c3_update_labeled_unlabeled_opened 7 wbUpdateRemove storyOpen [updateRemoveLabel]
    rfl rfl rfl (by decide) (by decide)

/-- Helper: the JS filter-count test is membership. -/
theorem labelFilterCountPos_iff (ls : List Int) (lid : Int) :
    labelFilterCountPos ls lid = true ↔ lid ∈ ls := by
  unfold labelFilterCountPos
  rw [decide_eq_true_eq, ← List.countP_eq_length_filter, List.countP_pos_iff]
  constructor
  · rintro ⟨a, ha, he⟩
    rcases beq_iff_eq.mp he with rfl
    exact ha
  · intro h
    exact ⟨lid, h, by simp⟩

/-- Helper: membership in an optional list defaulted to `[]`. -/
theorem mem_getD_nil_iff (o : Option (List Int)) (x : Int) :
    x ∈ o.getD [] ↔ ∃ ls, o = some ls ∧ x ∈ ls := by
  cases o <;> simp

/-- Helper: `hasLabelId` holds exactly when some action's direct label
list or selected delta contains the target id. -/
theorem hasLabelId_iff_mem (check : String) (lid : Int) (acts : List ShortcutAction) :
    hasLabelId check lid acts = true ↔
      ∃ a ∈ acts, lid ∈ a.label_ids.getD [] ∨ lid ∈ (deltaLabels a check).getD [] := by
  induction acts with
  | nil => simp [hasLabelId]
  | cons a rest ih =>
    simp only [hasLabelId]
    split
    · next h1 =>
        simp only [if_pos, true_iff]
        exact ⟨a, List.mem_cons_self a rest, Or.inl ((labelFilterCountPos_iff _ _).mp h1)⟩
    · next h1 =>
        split
        · next h2 =>
            simp only [true_iff]
            exact ⟨a, List.mem_cons_self a rest, Or.inr ((labelFilterCountPos_iff _ _).mp h2)⟩
        · next h2 =>
            rw [ih]
            constructor
            · rintro ⟨b, hb, hh⟩
              exact ⟨b, List.mem_cons_of_mem _ hb, hh⟩
            · rintro ⟨b, hb, hh⟩
              rcases List.mem_cons.mp hb with rfl | hb'
              · rcases hh with h | h
                · exact absurd ((labelFilterCountPos_iff _ _).mpr h) (by simpa using h1)
                · exact absurd ((labelFilterCountPos_iff _ _).mpr h) (by simpa using h2)
              · exact ⟨b, hb', hh⟩

/-- C4: for every action list, target label id and check selector,
`hasLabelId` is true iff some action's direct `label_ids` or its
selected `changes.label_ids` delta contains the target id, and the
result is invariant under permutation of the actions. -/
theorem c4_hasLabelId_spec
    (check : String) (lid : Int) (acts : List ShortcutAction)
    (hcheck : check = "adds" ∨ check = "removes") :
    (hasLabelId check lid acts = true ↔
       ∃ a ∈ acts, (∃ ls, a.label_ids = some ls ∧ lid ∈ ls)
         ∨ (∃ ls, deltaLabels a check = some ls ∧ lid ∈ ls))
    ∧ ∀ acts₂ : List ShortcutAction, acts.Perm acts₂ →
        hasLabelId check lid acts = hasLabelId check lid acts₂ := by
  constructor
  · rw [hasLabelId_iff_mem]
    constructor
    · rintro ⟨a, ha, h | h⟩
      · exact ⟨a, ha, Or.inl ((mem_getD_nil_iff _ _).mp h)⟩
      · exact ⟨a, ha, Or.inr ((mem_getD_nil_iff _ _).mp h)⟩
    · rintro ⟨a, ha, h | h⟩
      · exact ⟨a, ha, Or.inl ((mem_getD_nil_iff _ _).mpr h)⟩
      · exact ⟨a, ha, Or.inr ((mem_getD_nil_iff _ _).mpr h)⟩
  · intro acts₂ hperm
    by_cases hb : hasLabelId check lid acts
    · rcases (hasLabelId_iff_mem check lid acts).mp hb with ⟨a, ha, hh⟩
      have h2 : hasLabelId check lid acts₂ = true :=
        (hasLabelId_iff_mem check lid acts₂).mpr ⟨a, hperm.mem_iff.mp ha, hh⟩
      rw [hb, h2]
    · by_cases hc : hasLabelId check lid acts₂
      · rcases (hasLabelId_iff_mem check lid acts₂).mp hc with ⟨a, ha, hh⟩
        exact absurd ((hasLabelId_iff_mem check lid acts).mpr
          ⟨a, hperm.mem_iff.mpr ha, hh⟩) hb
      · rw [Bool.eq_false_iff.mpr hb, Bool.eq_false_iff.mpr hc]

/-- Witness for C4 at the `removes` selector and a concrete
update-with-removal action list. -/
theorem c4_hasLabelId_spec_w :
    (hasLabelId "removes" 7 [updateRemoveLabel] = true ↔
       ∃ a ∈ [updateRemoveLabel], (∃ ls, a.label_ids = some ls ∧ 7 ∈ ls)
         ∨ (∃ ls, deltaLabels a "removes" = some ls ∧ 7 ∈ ls))
    ∧ ∀ acts₂ : List ShortcutAction, List.Perm [updateRemoveLabel] acts₂ →
        hasLabelId "removes" 7 [updateRemoveLabel] = hasLabelId "removes" 7 acts₂ :=
  c4_hasLabelId_spec "removes" 7 [updateRemoveLabel] (Or.inr rfl)

/-- C9: a missing or empty webhook body makes both getPayload and
getEventType raise `MissingShortcutFieldsError`; a non-empty body
lacking `primary_id` makes getPayload raise `MissingIdError` in the
story-fetch step. -/
theorem c9_missing_body_and_id_errors
    (lid : Int) (fetchStory : String → Option StoryData)
    (convert : Option String → String) (nowMs : Nat)
    (wbE wbN : WebhookBody)
    (hemp : bodyIsEmpty wbE = true)
    (hne : bodyIsEmpty wbN = false) (hnid : wbN.primary_id = none) :
    getPayload lid fetchStory convert nowMs none = .error .missingShortcutFields
    ∧ getEventType lid none = .error .missingShortcutFields
    ∧ getPayload lid fetchStory convert nowMs (some wbE) = .error .missingShortcutFields
    ∧ getEventType lid (some wbE) = .error .missingShortcutFields
    ∧ getPayload lid fetchStory convert nowMs (some wbN) = .error .missingId := by
  refine ⟨rfl, rfl, ?_, ?_, ?_⟩
  · simp [getPayload, hemp]
  · simp [getEventType, hemp]
  · simp [getPayload, hne, getStoryData, hnid]

/-- Witness for C9 at the concrete empty body and a concrete non-empty
body lacking `primary_id`. -/
theorem c9_missing_body_and_id_errors_w :
    getPayload 7 fetchOpen convertStub 1000 none = .error .missingShortcutFields
    ∧ getEventType 7 none = .error .missingShortcutFields
    ∧ getPayload 7 fetchOpen convertStub 1000 (some wbEmpty) = .error .missingShortcutFields
    ∧ getEventType 7 (some wbEmpty) = .error .missingShortcutFields
    ∧ getPayload 7 fetchOpen convertStub 1000 (some wbNoId) = .error .missingId :=
  c9_missing_body_and_id_errors 7 fetchOpen convertStub 1000 wbEmpty wbNoId rfl rfl rfl

/-- Helper: the classifier only ever succeeds with one of five event
strings. -/
theorem classify_ok_cases (lid : Int) (wb : WebhookBody) (story : StoryData) (ev : String)
    (h : classify lid wb story = .ok ev) :
    ev = "closed" ∨ ev = "labeled" ∨ ev = "opened" ∨ ev = "unlabeled" ∨ ev = "unknown" := by
  unfold classify at h
  split at h
  · simp only [Except.ok.injEq] at h
    exact Or.inl h.symm
  · split at h
    · simp only [Except.ok.injEq] at h
      exact Or.inl h.symm
    · split at h
      · exact absurd h (by simp)
      · split at h
        · split at h <;> simp only [Except.ok.injEq] at h
          · exact Or.inr (Or.inl h.symm)
          · exact Or.inr (Or.inr (Or.inl h.symm))
        · split at h
          · split at h
            · simp only [Except.ok.injEq] at h
              exact Or.inr (Or.inl h.symm)
            · split at h <;> simp only [Except.ok.injEq] at h
              · exact Or.inr (Or.inr (Or.inr (Or.inl h.symm)))
              · exact Or.inr (Or.inr (Or.inl h.symm))
          · simp only [Except.ok.injEq] at h
            exact Or.inr (Or.inr (Or.inr (Or.inr h.symm)))

/-- C10 counterexample: a non-empty webhook body without an `actions`
key makes getEventType throw a `TypeError` instead of returning
`incident` or `change`. -/
theorem c10_event_type_cex :
    bodyIsEmpty wbNoActions = false
    ∧ getEventType 7 (some wbNoActions) = .error .typeError
    ∧ getEventType 7 (some wbNoActions) ≠ .ok "incident"
    ∧ getEventType 7 (some wbNoActions) ≠ .ok "change" := by
  refine ⟨rfl, rfl, ?_, ?_⟩ <;> simp [getEventType, wbNoActions, bodyIsEmpty]

/-- C10 amended: for every non-empty webhook body that has an `actions`
array, getEventType returns exactly one of `incident` and `change`, and
it returns `incident` iff some action's direct `label_ids` or its
`changes.label_ids.adds` delta contains the configured incident label
id. -/
theorem c10_event_type_amended
    (lid : Int) (wb : WebhookBody) (acts : List ShortcutAction)
    (hne : bodyIsEmpty wb = false) (hacts : wb.actions = some acts) :
    (getEventType lid (some wb) = .ok "incident" ∨ getEventType lid (some wb) = .ok "change")
    ∧ (getEventType lid (some wb) = .ok "incident" ↔
        ∃ a ∈ acts, (∃ ls, a.label_ids = some ls ∧ lid ∈ ls)
          ∨ (∃ ls, deltaLabels a "adds" = some ls ∧ lid ∈ ls)) := by
  have he : getEventType lid (some wb)
      = .ok (if hasIncidentLabel lid acts then "incident" else "change") := by
    simp [getEventType, hne, hacts]
  constructor
  · by_cases hil : hasIncidentLabel lid acts
    · exact Or.inl (by simp [he, hil])
    · exact Or.inr (by simp [he, hil])
  · rw [he]
    constructor
    · intro h
      by_cases hil : hasIncidentLabel lid acts
      · rcases (hasLabelId_iff_mem "adds" lid acts).mp hil with ⟨a, ha, hh | hh⟩
        · exact ⟨a, ha, Or.inl ((mem_getD_nil_iff _ _).mp hh)⟩
        · exact ⟨a, ha, Or.inr ((mem_getD_nil_iff _ _).mp hh)⟩
      · simp [hil] at h
    · rintro ⟨a, ha, hh⟩
      have hil : hasIncidentLabel lid acts = true := by
        apply (hasLabelId_iff_mem "adds" lid acts).mpr
        rcases hh with h | h
        · exact ⟨a, ha, Or.inl ((mem_getD_nil_iff _ _).mpr h)⟩
        · exact ⟨a, ha, Or.inr ((mem_getD_nil_iff _ _).mpr h)⟩
      simp [hil]

/-- Witness for the amended C10 at a concrete labelled-create body. -/
theorem c10_event_type_amended_w :
    (getEventType 7 (some wbCreate) = .ok "incident"
       ∨ getEventType 7 (some wbCreate) = .ok "change")
    ∧ (getEventType 7 (some wbCreate) = .ok "incident" ↔
        ∃ a ∈ [createWithLabel], (∃ ls, a.label_ids = some ls ∧ (7 : Int) ∈ ls)
          ∨ (∃ ls, deltaLabels a "adds" = some ls ∧ (7 : Int) ∈ ls)) :=
  c10_event_type_amended 7 wbCreate [createWithLabel] rfl rfl

/-- C5 counterexample: a body with an empty actions array and an open
story classifies as `unknown`, and the sentinel DTO carries
`timeResolved = "UNKNOWN"`, so a non-closed/unlabeled DTO can carry a
`timeResolved` field. -/
theorem c5_unknown_sentinel_cex :
    classify 7 wbEmptyActions storyOpen = .ok "unknown"
    ∧ getPayload 7 fetchOpen convertStub 1000 (some wbEmptyActions) = .ok unknownDto
    ∧ unknownDto.timeResolved = some "UNKNOWN" :=
  ⟨rfl, rfl, rfl⟩

/-- C5 amended: for every successful getPayload run, the DTO lacks the
`timeResolved` field iff the event classified as `opened` or `labeled`;
it carries the field for `closed`, `unlabeled`, and also for the
`unknown` sentinel. -/
theorem c5_timeResolved_presence
    (lid : Int) (fetchStory : String → Option StoryData)
    (convert : Option String → String) (nowMs : Nat)
    (wb : WebhookBody) (story : StoryData) (pid : String) (ev : String)
    (hne : bodyIsEmpty wb = false) (hpid : wb.primary_id = some pid) (hpne : pid ≠ "")
    (hf : fetchStory pid = some story)
    (hev : classify lid wb story = .ok ev) :
    ∃ dto, getPayload lid fetchStory convert nowMs (some wb) = .ok dto
      ∧ (dto.timeResolved = none ↔ (ev = "opened" ∨ ev = "labeled")) := by
  rcases classify_ok_cases lid wb story ev hev with h | h | h | h | h <;> subst h
  · exact ⟨handleClosedUnlabeled convert nowMs wb story,
      by simp [getPayload, hne, getStoryData, hpid, hpne, hf, hev],
      by simp [handleClosedUnlabeled]⟩
  · exact ⟨handleOpenedLabeled convert wb story,
      by simp [getPayload, hne, getStoryData, hpid, hpne, hf, hev],
      by simp [handleOpenedLabeled]⟩
  · exact ⟨handleOpenedLabeled convert wb story,
      by simp [getPayload, hne, getStoryData, hpid, hpne, hf, hev],
      by simp [handleOpenedLabeled]⟩
  · exact ⟨handleClosedUnlabeled convert nowMs wb story,
      by simp [getPayload, hne, getStoryData, hpid, hpne, hf, hev],
      by simp [handleClosedUnlabeled]⟩
  · exact ⟨unknownDto,
      by simp [getPayload, hne, getStoryData, hpid, hpne, hf, hev],
      by simp [unknownDto]⟩

/-- Witness for the amended C5 at the concrete `unknown`-classified
input. -/
theorem c5_timeResolved_presence_w :
    ∃ dto, getPayload 7 fetchOpen convertStub 1000 (some wbEmptyActions) = .ok dto
      ∧ (dto.timeResolved = none ↔ (("unknown" : String) = "opened" ∨ ("unknown" : String) = "labeled")) :=
  c5_timeResolved_presence 7 fetchOpen convertStub 1000 wbEmptyActions storyOpen "314"
    "unknown" rfl rfl (by decide) rfl rfl

/-- C6 counterexample: at a concrete `unlabeled` run (story neither
completed nor archived) with `Date.now()` at 1672531200000 ms, the DTO's
`timeResolved` is the millisecond string `"1672531200000"`, not the
Unix-seconds string `"1672531200"`, and `eventTime` is the webhook's
ISO `changed_at` string passed through unchanged. -/
theorem c6_time_fields_cex :
    getPayload 7 fetchOpen convertStub 1672531200000 (some wbUpdateRemove)
      = .ok (handleClosedUnlabeled convertStub 1672531200000 wbUpdateRemove storyOpen)
    ∧ (handleClosedUnlabeled convertStub 1672531200000 wbUpdateRemove storyOpen).timeResolved
        = some "1672531200000"
    ∧ (1672531200000 : Nat) / 1000 = 1672531200
    ∧ ("1672531200000" : String) ≠ "1672531200"
    ∧ (handleClosedUnlabeled convertStub 1672531200000 wbUpdateRemove storyOpen).eventTime
        = some "2023-01-05T12:00:00Z" := by
  refine ⟨rfl, rfl, rfl, by decide, rfl⟩

/-- C6 amended: for every run classified `unlabeled` (the only
classification that reaches the no-completion-timestamp fallback), the
DTO's `eventTime` is the webhook's `changed_at` passed through
unchanged, `timeCreated` is whatever the external converter returns for
the story's `created_at`, and `timeResolved` is the current time in
milliseconds rendered as a string. -/
theorem c6_time_fields_amended
    (lid : Int) (fetchStory : String → Option StoryData)
    (convert : Option String → String) (nowMs : Nat)
    (wb : WebhookBody) (story : StoryData) (pid : String)
    (hne : bodyIsEmpty wb = false) (hpid : wb.primary_id = some pid) (hpne : pid ≠ "")
    (hf : fetchStory pid = some story)
    (hev : classify lid wb story = .ok "unlabeled") :
    getPayload lid fetchStory convert nowMs (some wb)
      = .ok { eventTime := wb.changed_at
            , timeCreated := convert story.created_at
            , timeResolved := some (toString nowMs)
            , id := renderStoryId story.id
            , title := story.name
            , message := serializeStory story } := by
  have hnc : story.completed = false := by
    by_contra hc
    have hc' : story.completed = true := by simpa using hc
    simp [classify, hc'] at hev
  have hna : story.archived = false := by
    by_contra hc
    have hc' : story.archived = true := by simpa using hc
    simp [classify, hnc, hc'] at hev
  simp [getPayload, hne, getStoryData, hpid, hpne, hf, hev,
        handleClosedUnlabeled, handleTimeResolved, hnc, hna]

/-- Witness for the amended C6 at the concrete update-with-removal
body. -/
theorem c6_time_fields_amended_w :
    getPayload 7 fetchOpen convertStub 1672531200000 (some wbUpdateRemove)
      = .ok { eventTime := wbUpdateRemove.changed_at
            , timeCreated := convertStub storyOpen.created_at
            , timeResolved := some (toString 1672531200000)
            , id := renderStoryId storyOpen.id
            , title := storyOpen.name
            , message := serializeStory storyOpen } :=
  c6_time_fields_amended 7 fetchOpen convertStub 1672531200000 wbUpdateRemove storyOpen
    "314" rfl rfl (by decide) rfl rfl

/-! Embedding of `time.ts` and of the JavaScript Date parser for the
date-time strings this module produces. -/

/-- Gregorian leap-year test (as used by the ECMAScript calendar). -/
def isLeapYear (y : Int) : Bool :=
  (y % 4 == 0 && y % 100 != 0) || y % 400 == 0

/-- Days in a month of the proleptic Gregorian calendar; `0` for an
invalid month number. -/
def daysInMonth (y m : Int) : Int :=
  if m = 1 then 31 else if m = 2 then (if isLeapYear y then 29 else 28)
  else if m = 3 then 31 else if m = 4 then 30 else if m = 5 then 31
  else if m = 6 then 30 else if m = 7 then 31 else if m = 8 then 31
  else if m = 9 then 30 else if m = 10 then 31 else if m = 11 then 30
  else if m = 12 then 31 else 0

/-- Days since 1970-01-01 of a proleptic Gregorian civil date
(the standard era-based conversion, with floor division). -/
def daysFromCivil (y m d : Int) : Int :=
  let ys := if m ≤ 2 then y - 1 else y
  let era := ys.fdiv 400
  let yoe := ys - era * 400
  let mp := if m ≤ 2 then m + 9 else m - 3
  let doy := (153 * mp + 2).fdiv 5 + d - 1
  let doe := yoe * 365 + yoe.fdiv 4 - yoe.fdiv 100 + doy
  era * 146097 + doe - 719468

/-- Numeric value of an ASCII digit character. -/
def digitVal (c : Char) : Nat := c.toNat - 48

/-- Value of a two-digit group. -/
def digits2 (a b : Char) : Nat := 10 * digitVal a + digitVal b

/-- Value of a three-digit group. -/
def digits3 (a b c : Char) : Nat :=
  100 * digitVal a + 10 * digitVal b + digitVal c

/-- Value of a four-digit group. -/
def digits4 (a b c d : Char) : Nat :=
  1000 * digitVal a + 100 * digitVal b + 10 * digitVal c + digitVal d

/-- Model of JavaScript `new Date(s).getTime()` for the exact
`YYYY-MM-DDTHH:MM:SS.mmm(+|-)HH:MM` shape that
`createTimezoneConvertedDateString` produces: components are read
positionally, digits and ranges are validated as the ECMAScript
date-time string grammar requires, and `none` models an Invalid Date
(`getTime()` returning `NaN`).  Any string not of this shape — in
particular one whose offset hour has more than two digits — is an
Invalid Date. -/
def jsNewDateMs (s : String) : Option Int :=
  match s.data with
  | [y1, y2, y3, y4, '-', mo1, mo2, '-', d1, d2, 'T',
     h1, h2, ':', mi1, mi2, ':', se1, se2, '.', f1, f2, f3,
     sg, o1, o2, ':', om1, om2] =>
    if y1.isDigit = true ∧ y2.isDigit = true ∧ y3.isDigit = true ∧ y4.isDigit = true
        ∧ mo1.isDigit = true ∧ mo2.isDigit = true ∧ d1.isDigit = true ∧ d2.isDigit = true
        ∧ h1.isDigit = true ∧ h2.isDigit = true ∧ mi1.isDigit = true ∧ mi2.isDigit = true
        ∧ se1.isDigit = true ∧ se2.isDigit = true
        ∧ f1.isDigit = true ∧ f2.isDigit = true ∧ f3.isDigit = true
        ∧ o1.isDigit = true ∧ o2.isDigit = true ∧ om1.isDigit = true ∧ om2.isDigit = true
        ∧ (sg = '+' ∨ sg = '-')
        ∧ 1 ≤ digits2 mo1 mo2 ∧ digits2 mo1 mo2 ≤ 12
        ∧ 1 ≤ digits2 d1 d2
        ∧ (digits2 d1 d2 : Int) ≤ daysInMonth (digits4 y1 y2 y3 y4) (digits2 mo1 mo2)
        ∧ digits2 h1 h2 ≤ 23 ∧ digits2 mi1 mi2 ≤ 59 ∧ digits2 se1 se2 ≤ 59
        ∧ digits2 o1 o2 ≤ 23 ∧ digits2 om1 om2 ≤ 59 then
      some (daysFromCivil (digits4 y1 y2 y3 y4) (digits2 mo1 mo2) (digits2 d1 d2) * 86400000
            + (digits2 h1 h2 : Int) * 3600000 + (digits2 mi1 mi2 : Int) * 60000
            + (digits2 se1 se2 : Int) * 1000 + (digits3 f1 f2 f3 : Int)
            - (if sg = '+' then 1 else -1)
                * ((digits2 o1 o2 : Int) * 3600000 + (digits2 om1 om2 : Int) * 60000))
    else none
  | _ => none

/-- `convertToIsoDate` of time.ts: a string that is empty or not of
length 8 raises `InvalidIsoDateConversionError` (modelled by `none`);
otherwise dashes are inserted between the `substring` groups.  JS
`substring` on these ASCII strings is take/drop on the characters. -/
def convertToIsoDate (input : String) : Option String :=
  if input.length = 8 then
    some (String.mk (input.data.take 4 ++ '-' :: (input.data.drop 4).take 2
           ++ '-' :: (input.data.drop 6).take 2))
  else none

/-- `createTimezoneConvertedDateString` of time.ts: flips the offset
sign (`offsetMarker`), strips the minus sign from the offset's decimal
string (`replace('-', '')` removes the unique minus of an integer
literal, modelled by a filter), pads a single digit with a leading
zero, and appends `:00`. -/
def createTimezoneConvertedDateString (formattedDate : String) (offsetInHours : Int)
    (lastPossibleTime : Bool) : String :=
  let offsetStr := toString offsetInHours
  let offsetMarker : Char := if offsetStr.data.contains '-' then '+' else '-'
  let numericOffset : List Char := offsetStr.data.filter (fun c => c ≠ '-')
  let leadingZero : List Char := if numericOffset.length = 1 then ['0'] else []
  let time : List Char :=
    if lastPossibleTime then "T23:59:59.999".data else "T00:00:00.000".data
  String.mk (formattedDate.data ++ time
    ++ offsetMarker :: (leadingZero ++ numericOffset ++ [':', '0', '0']))

/-- `getTimestampForISODate` of time.ts:
`Math.floor(new Date(converted).getTime() / 1000)`; `none` propagates
an Invalid Date (`NaN`). -/
def getTimestampForISODate (formattedDate : String) (offsetInHours : Int)
    (lastPossibleTime : Bool) : Option Int :=
  (jsNewDateMs
    (createTimezoneConvertedDateString formattedDate offsetInHours lastPossibleTime)).map
    (fun ms => ms.fdiv 1000)

/-- `getTimestampForInputDate` of time.ts: ISO conversion, timestamp,
then string interpolation (`NaN` renders as the string `"NaN"`);
`none` models the thrown `InvalidIsoDateConversionError`. -/
def getTimestampForInputDate (date : String) (offsetInHours : Int)
    (lastPossibleTime : Bool) : Option String :=
  (convertToIsoDate date).map fun formatted =>
    match getTimestampForISODate formatted offsetInHours lastPossibleTime with
    | some ts => toString ts
    | none => "NaN"

/-- Validity of an 8-digit `YYYYMMDD` input date: all digits, month in
1..12, day in range for the month. -/
def isValidDateString (d : String) : Bool :=
  match d.data with
  | [c1, c2, c3, c4, c5, c6, c7, c8] =>
    (c1.isDigit && c2.isDigit && c3.isDigit && c4.isDigit
      && c5.isDigit && c6.isDigit && c7.isDigit && c8.isDigit)
    && decide (1 ≤ digits2 c5 c6) && decide (digits2 c5 c6 ≤ 12)
    && decide (1 ≤ digits2 c7 c8)
    && decide ((digits2 c7 c8 : Int) ≤ daysInMonth (digits4 c1 c2 c3 c4) (digits2 c5 c6))
  | _ => false

/-- C7: the timestamp for `"20230101"` at offset 0 is `"1672531200"`. -/
theorem c7_timestamp_20230101 :
    getTimestampForInputDate "20230101" 0 false = some "1672531200" := by
  decide

/-- Helper: evaluation of the Date model on the produced string shape
with midnight time and a two-digit offset hour. -/
theorem jsNewDateMs_shape
    (c1 c2 c3 c4 c5 c6 c7 c8 sg o1 o2 : Char)
    (hc1 : c1.isDigit = true) (hc2 : c2.isDigit = true)
    (hc3 : c3.isDigit = true) (hc4 : c4.isDigit = true)
    (hc5 : c5.isDigit = true) (hc6 : c6.isDigit = true)
    (hc7 : c7.isDigit = true) (hc8 : c8.isDigit = true)
    (ho1 : o1.isDigit = true) (ho2 : o2.isDigit = true)
    (hsg : sg = '+' ∨ sg = '-')
    (hmo1 : 1 ≤ digits2 c5 c6) (hmo2 : digits2 c5 c6 ≤ 12)
    (hd1 : 1 ≤ digits2 c7 c8)
    (hd2 : (digits2 c7 c8 : Int) ≤ daysInMonth (digits4 c1 c2 c3 c4) (digits2 c5 c6))
    (hoh : digits2 o1 o2 ≤ 23) :
    jsNewDateMs (String.mk [c1, c2, c3, c4, '-', c5, c6, '-', c7, c8, 'T',
        '0', '0', ':', '0', '0', ':', '0', '0', '.', '0', '0', '0',
        sg, o1, o2, ':', '0', '0'])
      = some (daysFromCivil (digits4 c1 c2 c3 c4) (digits2 c5 c6) (digits2 c7 c8) * 86400000
              - (if sg = '+' then 1 else -1) * ((digits2 o1 o2 : Int) * 3600000)) := by
  simp only [jsNewDateMs]
  rw [if_pos]
  · simp [digits2, digits3, digitVal]
  · refine ⟨hc1, hc2, hc3, hc4, hc5, hc6, hc7, hc8, ?_, ?_, ?_, ?_, ?_, ?_, ?_, ?_, ?_,
      ho1, ho2, ?_, ?_, hsg, hmo1, hmo2, hd1, hd2, ?_, ?_, ?_, hoh, ?_⟩ <;> decide


/-- Helper: end-to-end evaluation of `getTimestampForInputDate` on a
valid 8-digit date once the converted string and the signed offset are
known. -/
theorem getTimestamp_eval
    (c1 c2 c3 c4 c5 c6 c7 c8 sg o1 o2 : Char) (h : Int)
    (hc1 : c1.isDigit = true) (hc2 : c2.isDigit = true)
    (hc3 : c3.isDigit = true) (hc4 : c4.isDigit = true)
    (hc5 : c5.isDigit = true) (hc6 : c6.isDigit = true)
    (hc7 : c7.isDigit = true) (hc8 : c8.isDigit = true)
    (ho1 : o1.isDigit = true) (ho2 : o2.isDigit = true)
    (hsg : sg = '+' ∨ sg = '-')
    (hmo1 : 1 ≤ digits2 c5 c6) (hmo2 : digits2 c5 c6 ≤ 12)
    (hd1 : 1 ≤ digits2 c7 c8)
    (hd2 : (digits2 c7 c8 : Int) ≤ daysInMonth (digits4 c1 c2 c3 c4) (digits2 c5 c6))
    (hoh : digits2 o1 o2 ≤ 23)
    (hstr : createTimezoneConvertedDateString
        (String.mk [c1, c2, c3, c4, '-', c5, c6, '-', c7, c8]) h false
      = String.mk [c1, c2, c3, c4, '-', c5, c6, '-', c7, c8, 'T',
          '0', '0', ':', '0', '0', ':', '0', '0', '.', '0', '0', '0',
          sg, o1, o2, ':', '0', '0'])
    (hoff : (if sg = '+' then (-1 : Int) else 1) * (digits2 o1 o2 : Int) = h) :
    getTimestampForInputDate (String.mk [c1, c2, c3, c4, c5, c6, c7, c8]) h false
      = some (toString
          (daysFromCivil (digits4 c1 c2 c3 c4) (digits2 c5 c6) (digits2 c7 c8) * 86400
            + 3600 * h)) := by
  have hiso : convertToIsoDate (String.mk [c1, c2, c3, c4, c5, c6, c7, c8])
      = some (String.mk [c1, c2, c3, c4, '-', c5, c6, '-', c7, c8]) := rfl
  have hjs := jsNewDateMs_shape c1 c2 c3 c4 c5 c6 c7 c8 sg o1 o2 hc1 hc2 hc3 hc4 hc5 hc6
    hc7 hc8 ho1 ho2 hsg hmo1 hmo2 hd1 hd2 hoh
  have harith :
      daysFromCivil (digits4 c1 c2 c3 c4) (digits2 c5 c6) (digits2 c7 c8) * 86400000
        - (if sg = '+' then (1 : Int) else -1) * ((digits2 o1 o2 : Int) * 3600000)
      = 1000 * (daysFromCivil (digits4 c1 c2 c3 c4) (digits2 c5 c6) (digits2 c7 c8) * 86400
          + 3600 * h) := by
    rcases hsg with rfl | rfl
    · rw [if_pos rfl]
      rw [if_pos rfl] at hoff
      rw [← hoff]; ring
    · have hne : ('-' : Char) ≠ '+' := by decide
      rw [if_neg hne]
      rw [if_neg hne] at hoff
      rw [← hoff]; ring
  simp only [getTimestampForInputDate, hiso, Option.map_some', getTimestampForISODate,
    hstr, hjs, harith]
  rw [Int.mul_fdiv_cancel_left _ (by norm_num : (1000 : Int) ≠ 0)]


/-- Helper: a valid date string is eight digit characters with
in-range month and day. -/
theorem isValidDateString_elim (d : String) (hd : isValidDateString d = true) :
    ∃ c1 c2 c3 c4 c5 c6 c7 c8 : Char,
      d = String.mk [c1, c2, c3, c4, c5, c6, c7, c8]
      ∧ c1.isDigit = true ∧ c2.isDigit = true ∧ c3.isDigit = true ∧ c4.isDigit = true
      ∧ c5.isDigit = true ∧ c6.isDigit = true ∧ c7.isDigit = true ∧ c8.isDigit = true
      ∧ 1 ≤ digits2 c5 c6 ∧ digits2 c5 c6 ≤ 12
      ∧ 1 ≤ digits2 c7 c8
      ∧ (digits2 c7 c8 : Int) ≤ daysInMonth (digits4 c1 c2 c3 c4) (digits2 c5 c6) := by
  obtain ⟨l⟩ := d
  rcases l with _ | ⟨c1, _ | ⟨c2, _ | ⟨c3, _ | ⟨c4, _ | ⟨c5, _ | ⟨c6, _ | ⟨c7,
    _ | ⟨c8, _ | ⟨c9, rest⟩⟩⟩⟩⟩⟩⟩⟩⟩ <;>
    simp only [isValidDateString, Bool.and_eq_true, decide_eq_true_eq] at hd <;>
    try exact absurd hd Bool.false_ne_true
  obtain ⟨⟨⟨⟨⟨⟨⟨⟨⟨⟨⟨h1, h2⟩, h3⟩, h4⟩, h5⟩, h6⟩, h7⟩, h8⟩, hm1⟩, hm2⟩, hdd1⟩, hdd2⟩ := hd
  exact ⟨c1, c2, c3, c4, c5, c6, c7, c8, rfl, h1, h2, h3, h4, h5, h6, h7, h8,
    hm1, hm2, hdd1, hdd2⟩


/-- C8 amended: for every valid 8-digit date string and every offset
hour h with -23 <= h <= 23, the timestamp at offset h is the offset-0
timestamp plus 3600*h (the sign applied inverted relative to
conventional UTC-offset notation). -/
theorem c8_offset_shift_amended (d : String) (h : Int)
    (hvd : isValidDateString d = true) (hlo : -23 ≤ h) (hhi : h ≤ 23) :
    ∃ n : Int, getTimestampForInputDate d 0 false = some (toString n)
      ∧ getTimestampForInputDate d h false = some (toString (n + 3600 * h)) := by
  obtain ⟨c1, c2, c3, c4, c5, c6, c7, c8, rfl, hc1, hc2, hc3, hc4, hc5, hc6, hc7, hc8,
    hm1, hm2, hdd1, hdd2⟩ := isValidDateString_elim d hvd
  refine ⟨daysFromCivil (digits4 c1 c2 c3 c4) (digits2 c5 c6) (digits2 c7 c8) * 86400, ?_, ?_⟩
  · have h0 := getTimestamp_eval c1 c2 c3 c4 c5 c6 c7 c8 '-' '0' '0' 0
      hc1 hc2 hc3 hc4 hc5 hc6 hc7 hc8 (by decide) (by decide) (Or.inr rfl)
      hm1 hm2 hdd1 hdd2 (by decide) rfl (by decide)
    simpa using h0
  · interval_cases h
    · exact getTimestamp_eval c1 c2 c3 c4 c5 c6 c7 c8 '+' '2' '3' (-23)
        hc1 hc2 hc3 hc4 hc5 hc6 hc7 hc8 (by decide) (by decide) (by decide)
        hm1 hm2 hdd1 hdd2 (by decide) rfl (by decide)
    · exact getTimestamp_eval c1 c2 c3 c4 c5 c6 c7 c8 '+' '2' '2' (-22)
        hc1 hc2 hc3 hc4 hc5 hc6 hc7 hc8 (by decide) (by decide) (by decide)
        hm1 hm2 hdd1 hdd2 (by decide) rfl (by decide)
    · exact getTimestamp_eval c1 c2 c3 c4 c5 c6 c7 c8 '+' '2' '1' (-21)
        hc1 hc2 hc3 hc4 hc5 hc6 hc7 hc8 (by decide) (by decide) (by decide)
        hm1 hm2 hdd1 hdd2 (by decide) rfl (by decide)
    · exact getTimestamp_eval c1 c2 c3 c4 c5 c6 c7 c8 '+' '2' '0' (-20)
        hc1 hc2 hc3 hc4 hc5 hc6 hc7 hc8 (by decide) (by decide) (by decide)
        hm1 hm2 hdd1 hdd2 (by decide) rfl (by decide)
    · exact getTimestamp_eval c1 c2 c3 c4 c5 c6 c7 c8 '+' '1' '9' (-19)
        hc1 hc2 hc3 hc4 hc5 hc6 hc7 hc8 (by decide) (by decide) (by decide)
        hm1 hm2 hdd1 hdd2 (by decide) rfl (by decide)
    · exact getTimestamp_eval c1 c2 c3 c4 c5 c6 c7 c8 '+' '1' '8' (-18)
        hc1 hc2 hc3 hc4 hc5 hc6 hc7 hc8 (by decide) (by decide) (by decide)
        hm1 hm2 hdd1 hdd2 (by decide) rfl (by decide)
    · exact getTimestamp_eval c1 c2 c3 c4 c5 c6 c7 c8 '+' '1' '7' (-17)
        hc1 hc2 hc3 hc4 hc5 hc6 hc7 hc8 (by decide) (by decide) (by decide)
        hm1 hm2 hdd1 hdd2 (by decide) rfl (by decide)
    · exact getTimestamp_eval c1 c2 c3 c4 c5 c6 c7 c8 '+' '1' '6' (-16)
        hc1 hc2 hc3 hc4 hc5 hc6 hc7 hc8 (by decide) (by decide) (by decide)
        hm1 hm2 hdd1 hdd2 (by decide) rfl (by decide)
    · exact getTimestamp_eval c1 c2 c3 c4 c5 c6 c7 c8 '+' '1' '5' (-15)
        hc1 hc2 hc3 hc4 hc5 hc6 hc7 hc8 (by decide) (by decide) (by decide)
        hm1 hm2 hdd1 hdd2 (by decide) rfl (by decide)
    · exact getTimestamp_eval c1 c2 c3 c4 c5 c6 c7 c8 '+' '1' '4' (-14)
        hc1 hc2 hc3 hc4 hc5 hc6 hc7 hc8 (by decide) (by decide) (by decide)
        hm1 hm2 hdd1 hdd2 (by decide) rfl (by decide)
    · exact getTimestamp_eval c1 c2 c3 c4 c5 c6 c7 c8 '+' '1' '3' (-13)
        hc1 hc2 hc3 hc4 hc5 hc6 hc7 hc8 (by decide) (by decide) (by decide)
        hm1 hm2 hdd1 hdd2 (by decide) rfl (by decide)
    · exact getTimestamp_eval c1 c2 c3 c4 c5 c6 c7 c8 '+' '1' '2' (-12)
        hc1 hc2 hc3 hc4 hc5 hc6 hc7 hc8 (by decide) (by decide) (by decide)
        hm1 hm2 hdd1 hdd2 (by decide) rfl (by decide)
    · exact getTimestamp_eval c1 c2 c3 c4 c5 c6 c7 c8 '+' '1' '1' (-11)
        hc1 hc2 hc3 hc4 hc5 hc6 hc7 hc8 (by decide) (by decide) (by decide)
        hm1 hm2 hdd1 hdd2 (by decide) rfl (by decide)
    · exact getTimestamp_eval c1 c2 c3 c4 c5 c6 c7 c8 '+' '1' '0' (-10)
        hc1 hc2 hc3 hc4 hc5 hc6 hc7 hc8 (by decide) (by decide) (by decide)
        hm1 hm2 hdd1 hdd2 (by decide) rfl (by decide)
    · exact getTimestamp_eval c1 c2 c3 c4 c5 c6 c7 c8 '+' '0' '9' (-9)
        hc1 hc2 hc3 hc4 hc5 hc6 hc7 hc8 (by decide) (by decide) (by decide)
        hm1 hm2 hdd1 hdd2 (by decide) rfl (by decide)
    · exact getTimestamp_eval c1 c2 c3 c4 c5 c6 c7 c8 '+' '0' '8' (-8)
        hc1 hc2 hc3 hc4 hc5 hc6 hc7 hc8 (by decide) (by decide) (by decide)
        hm1 hm2 hdd1 hdd2 (by decide) rfl (by decide)
    · exact getTimestamp_eval c1 c2 c3 c4 c5 c6 c7 c8 '+' '0' '7' (-7)
        hc1 hc2 hc3 hc4 hc5 hc6 hc7 hc8 (by decide) (by decide) (by decide)
        hm1 hm2 hdd1 hdd2 (by decide) rfl (by decide)
    · exact getTimestamp_eval c1 c2 c3 c4 c5 c6 c7 c8 '+' '0' '6' (-6)
        hc1 hc2 hc3 hc4 hc5 hc6 hc7 hc8 (by decide) (by decide) (by decide)
        hm1 hm2 hdd1 hdd2 (by decide) rfl (by decide)
    · exact getTimestamp_eval c1 c2 c3 c4 c5 c6 c7 c8 '+' '0' '5' (-5)
        hc1 hc2 hc3 hc4 hc5 hc6 hc7 hc8 (by decide) (by decide) (by decide)
        hm1 hm2 hdd1 hdd2 (by decide) rfl (by decide)
    · exact getTimestamp_eval c1 c2 c3 c4 c5 c6 c7 c8 '+' '0' '4' (-4)
        hc1 hc2 hc3 hc4 hc5 hc6 hc7 hc8 (by decide) (by decide) (by decide)
        hm1 hm2 hdd1 hdd2 (by decide) rfl (by decide)
    · exact getTimestamp_eval c1 c2 c3 c4 c5 c6 c7 c8 '+' '0' '3' (-3)
        hc1 hc2 hc3 hc4 hc5 hc6 hc7 hc8 (by decide) (by decide) (by decide)
        hm1 hm2 hdd1 hdd2 (by decide) rfl (by decide)
    · exact getTimestamp_eval c1 c2 c3 c4 c5 c6 c7 c8 '+' '0' '2' (-2)
        hc1 hc2 hc3 hc4 hc5 hc6 hc7 hc8 (by decide) (by decide) (by decide)
        hm1 hm2 hdd1 hdd2 (by decide) rfl (by decide)
    · exact getTimestamp_eval c1 c2 c3 c4 c5 c6 c7 c8 '+' '0' '1' (-1)
        hc1 hc2 hc3 hc4 hc5 hc6 hc7 hc8 (by decide) (by decide) (by decide)
        hm1 hm2 hdd1 hdd2 (by decide) rfl (by decide)
    · exact getTimestamp_eval c1 c2 c3 c4 c5 c6 c7 c8 '-' '0' '0' (0)
        hc1 hc2 hc3 hc4 hc5 hc6 hc7 hc8 (by decide) (by decide) (by decide)
        hm1 hm2 hdd1 hdd2 (by decide) rfl (by decide)
    · exact getTimestamp_eval c1 c2 c3 c4 c5 c6 c7 c8 '-' '0' '1' (1)
        hc1 hc2 hc3 hc4 hc5 hc6 hc7 hc8 (by decide) (by decide) (by decide)
        hm1 hm2 hdd1 hdd2 (by decide) rfl (by decide)
    · exact getTimestamp_eval c1 c2 c3 c4 c5 c6 c7 c8 '-' '0' '2' (2)
        hc1 hc2 hc3 hc4 hc5 hc6 hc7 hc8 (by decide) (by decide) (by decide)
        hm1 hm2 hdd1 hdd2 (by decide) rfl (by decide)
    · exact getTimestamp_eval c1 c2 c3 c4 c5 c6 c7 c8 '-' '0' '3' (3)
        hc1 hc2 hc3 hc4 hc5 hc6 hc7 hc8 (by decide) (by decide) (by decide)
        hm1 hm2 hdd1 hdd2 (by decide) rfl (by decide)
    · exact getTimestamp_eval c1 c2 c3 c4 c5 c6 c7 c8 '-' '0' '4' (4)
        hc1 hc2 hc3 hc4 hc5 hc6 hc7 hc8 (by decide) (by decide) (by decide)
        hm1 hm2 hdd1 hdd2 (by decide) rfl (by decide)
    · exact getTimestamp_eval c1 c2 c3 c4 c5 c6 c7 c8 '-' '0' '5' (5)
        hc1 hc2 hc3 hc4 hc5 hc6 hc7 hc8 (by decide) (by decide) (by decide)
        hm1 hm2 hdd1 hdd2 (by decide) rfl (by decide)
    · exact getTimestamp_eval c1 c2 c3 c4 c5 c6 c7 c8 '-' '0' '6' (6)
        hc1 hc2 hc3 hc4 hc5 hc6 hc7 hc8 (by decide) (by decide) (by decide)
        hm1 hm2 hdd1 hdd2 (by decide) rfl (by decide)
    · exact getTimestamp_eval c1 c2 c3 c4 c5 c6 c7 c8 '-' '0' '7' (7)
        hc1 hc2 hc3 hc4 hc5 hc6 hc7 hc8 (by decide) (by decide) (by decide)
        hm1 hm2 hdd1 hdd2 (by decide) rfl (by decide)
    · exact getTimestamp_eval c1 c2 c3 c4 c5 c6 c7 c8 '-' '0' '8' (8)
        hc1 hc2 hc3 hc4 hc5 hc6 hc7 hc8 (by decide) (by decide) (by decide)
        hm1 hm2 hdd1 hdd2 (by decide) rfl (by decide)
    · exact getTimestamp_eval c1 c2 c3 c4 c5 c6 c7 c8 '-' '0' '9' (9)
        hc1 hc2 hc3 hc4 hc5 hc6 hc7 hc8 (by decide) (by decide) (by decide)
        hm1 hm2 hdd1 hdd2 (by decide) rfl (by decide)
    · exact getTimestamp_eval c1 c2 c3 c4 c5 c6 c7 c8 '-' '1' '0' (10)
        hc1 hc2 hc3 hc4 hc5 hc6 hc7 hc8 (by decide) (by decide) (by decide)
        hm1 hm2 hdd1 hdd2 (by decide) rfl (by decide)
    · exact getTimestamp_eval c1 c2 c3 c4 c5 c6 c7 c8 '-' '1' '1' (11)
        hc1 hc2 hc3 hc4 hc5 hc6 hc7 hc8 (by decide) (by decide) (by decide)
        hm1 hm2 hdd1 hdd2 (by decide) rfl (by decide)
    · exact getTimestamp_eval c1 c2 c3 c4 c5 c6 c7 c8 '-' '1' '2' (12)
        hc1 hc2 hc3 hc4 hc5 hc6 hc7 hc8 (by decide) (by decide) (by decide)
        hm1 hm2 hdd1 hdd2 (by decide) rfl (by decide)
    · exact getTimestamp_eval c1 c2 c3 c4 c5 c6 c7 c8 '-' '1' '3' (13)
        hc1 hc2 hc3 hc4 hc5 hc6 hc7 hc8 (by decide) (by decide) (by decide)
        hm1 hm2 hdd1 hdd2 (by decide) rfl (by decide)
    · exact getTimestamp_eval c1 c2 c3 c4 c5 c6 c7 c8 '-' '1' '4' (14)
        hc1 hc2 hc3 hc4 hc5 hc6 hc7 hc8 (by decide) (by decide) (by decide)
        hm1 hm2 hdd1 hdd2 (by decide) rfl (by decide)
    · exact getTimestamp_eval c1 c2 c3 c4 c5 c6 c7 c8 '-' '1' '5' (15)
        hc1 hc2 hc3 hc4 hc5 hc6 hc7 hc8 (by decide) (by decide) (by decide)
        hm1 hm2 hdd1 hdd2 (by decide) rfl (by decide)
    · exact getTimestamp_eval c1 c2 c3 c4 c5 c6 c7 c8 '-' '1' '6' (16)
        hc1 hc2 hc3 hc4 hc5 hc6 hc7 hc8 (by decide) (by decide) (by decide)
        hm1 hm2 hdd1 hdd2 (by decide) rfl (by decide)
    · exact getTimestamp_eval c1 c2 c3 c4 c5 c6 c7 c8 '-' '1' '7' (17)
        hc1 hc2 hc3 hc4 hc5 hc6 hc7 hc8 (by decide) (by decide) (by decide)
        hm1 hm2 hdd1 hdd2 (by decide) rfl (by decide)
    · exact getTimestamp_eval c1 c2 c3 c4 c5 c6 c7 c8 '-' '1' '8' (18)
        hc1 hc2 hc3 hc4 hc5 hc6 hc7 hc8 (by decide) (by decide) (by decide)
        hm1 hm2 hdd1 hdd2 (by decide) rfl (by decide)
    · exact getTimestamp_eval c1 c2 c3 c4 c5 c6 c7 c8 '-' '1' '9' (19)
        hc1 hc2 hc3 hc4 hc5 hc6 hc7 hc8 (by decide) (by decide) (by decide)
        hm1 hm2 hdd1 hdd2 (by decide) rfl (by decide)
    · exact getTimestamp_eval c1 c2 c3 c4 c5 c6 c7 c8 '-' '2' '0' (20)
        hc1 hc2 hc3 hc4 hc5 hc6 hc7 hc8 (by decide) (by decide) (by decide)
        hm1 hm2 hdd1 hdd2 (by decide) rfl (by decide)
    · exact getTimestamp_eval c1 c2 c3 c4 c5 c6 c7 c8 '-' '2' '1' (21)
        hc1 hc2 hc3 hc4 hc5 hc6 hc7 hc8 (by decide) (by decide) (by decide)
        hm1 hm2 hdd1 hdd2 (by decide) rfl (by decide)
    · exact getTimestamp_eval c1 c2 c3 c4 c5 c6 c7 c8 '-' '2' '2' (22)
        hc1 hc2 hc3 hc4 hc5 hc6 hc7 hc8 (by decide) (by decide) (by decide)
        hm1 hm2 hdd1 hdd2 (by decide) rfl (by decide)
    · exact getTimestamp_eval c1 c2 c3 c4 c5 c6 c7 c8 '-' '2' '3' (23)
        hc1 hc2 hc3 hc4 hc5 hc6 hc7 hc8 (by decide) (by decide) (by decide)
        hm1 hm2 hdd1 hdd2 (by decide) rfl (by decide)

/-- Witness for the amended C8 at date `"20230101"` and offset 5. -/
theorem c8_offset_shift_amended_w :
    ∃ n : Int, getTimestampForInputDate "20230101" 0 false = some (toString n)
      ∧ getTimestampForInputDate "20230101" 5 false = some (toString (n + 3600 * 5)) :=
  c8_offset_shift_amended "20230101" 5 (by decide) (by decide) (by decide)

/-- C8 counterexample: the offset 100 is an integer number of hours,
yet the produced offset text `-100:00` is not a valid date-time string,
so the result is `"NaN"` rather than the offset-0 timestamp shifted by
3600*100. -/
theorem c8_offset_out_of_range_cex :
    isValidDateString "20230101" = true
    ∧ getTimestampForInputDate "20230101" 100 false = some "NaN"
    ∧ some "NaN" ≠ some (toString ((1672531200 : Int) + 3600 * 100)) := by
  refine ⟨by decide, by decide, by decide⟩
